import Mathlib

/-!
A shallow embedding of the `wu` compiler front-end (repository `cedric-h/wu`)
covering the tokenizer backtracking engine (`src/wu/lexer/tokenizer.rs`),
the scope-chained type table (`src/wu/visitor/typetab.rs`) and the semantic
checker (`src/wu/visitor/visitor.rs`), together with theorems settling the
frozen specification claims.

The symbol table, token and AST modules are not present under `src/`; where
they are needed they are modelled from the specification and marked as such.

Rust's in-place mutation through `&mut self` / `RefCell` is embedded as
explicit state passing: every operation returns the updated structure, and
fallible operations return `Except`.  A Rust panic (`unwrap`, out-of-bounds
indexing) is embedded as the `none` case of an `Option`-valued result.
-/

namespace Wu

/-- Source position: a (line, column) pair, as used for diagnostics. -/
abbrev Pos := Nat × Nat

/-- A diagnostic: a message plus an optional file name and position.
`make_error(None, msg)` in `typetab.rs` produces `⟨msg, none, none⟩`;
the visitor's `response!(Wrong(msg), file, pos)` produces
`⟨msg, some file, some pos⟩`. -/
structure Diag where
  msg  : String
  file : Option String
  pos  : Option Pos
deriving Repr, DecidableEq

/-- Embeds `make_error(None, msg)` from the error module: a diagnostic with no
file or position attached. -/
def make_error (msg : String) : Diag := ⟨msg, none, none⟩

/-! ## Type model (`visitor.rs` lines 6-176) -/

/-- Embeds `TypeMode` from `visitor.rs`: mutability/optionality mode of a type. -/
inductive TypeMode where
  | Undeclared
  | Immutable
  | Optional
  | Regular
deriving Repr, DecidableEq

/-- The strict mode check `TypeMode::check` (`visitor.rs` lines 81-91):
true exactly when both modes are the same constructor. -/
def TypeMode.check : TypeMode → TypeMode → Bool
  | .Regular,    .Regular    => true
  | .Immutable,  .Immutable  => true
  | .Undeclared, .Undeclared => true
  | .Optional,   .Optional   => true
  | _,           _           => false

/-- The relaxed `PartialEq for TypeMode` (`visitor.rs` lines 107-122).
Match arms are tried in source order, so `(Undeclared, Optional)` hits the
`(_, Optional) => true` arm before the `Undeclared` arms. -/
def tmEq : TypeMode → TypeMode → Bool
  | .Regular,    .Regular    => true
  | .Regular,    .Immutable  => true
  | .Immutable,  .Immutable  => true
  | .Immutable,  .Regular    => true
  | _,           .Optional   => true
  | .Optional,   _           => true
  | .Undeclared, _           => false
  | _,           .Undeclared => false

/-- Embeds `Display for TypeMode` (`visitor.rs` lines 94-105). -/
def tmShow : TypeMode → String
  | .Regular    => ""
  | .Immutable  => "constant "
  | .Undeclared => "undeclared "
  | .Optional   => "optional "

mutual
/-- Embeds `TypeNode` from `visitor.rs` lines 6-17. -/
inductive TypeNode where
  | Int
  | Float
  | Number
  | Bool
  | Str
  | Char
  | Nil
  | Id (name : String)
  | Set (content : List Ty)
deriving Repr

/-- Embeds `Type` from `visitor.rs` lines 126-130 (named `Ty` because `Type` is a
Lean keyword): a (TypeNode, TypeMode) pair. -/
inductive Ty where
  | mk (node : TypeNode) (mode : TypeMode)
deriving Repr
end

def Ty.node : Ty → TypeNode
  | .mk n _ => n

def Ty.mode : Ty → TypeMode
  | .mk _ m => m

mutual
/-- The relaxed `PartialEq for TypeNode` (`visitor.rs` lines 19-40):
`Number` compares equal to `Int` and `Float` in either direction. -/
def tnEq : TypeNode → TypeNode → Bool
  | .Int,    .Int    => true
  | .Int,    .Number => true
  | .Number, .Int    => true
  | .Float,  .Float  => true
  | .Float,  .Number => true
  | .Number, .Float  => true
  | .Number, .Number => true
  | .Bool,   .Bool   => true
  | .Str,    .Str    => true
  | .Char,   .Char   => true
  | .Nil,    .Nil    => true
  | .Id a,   .Id b   => a = b
  | .Set a,  .Set b  => tysEq a b
  | _,       _       => false

/-- The derived `PartialEq for Type` (`visitor.rs` line 126): componentwise,
using the relaxed node and mode comparisons. -/
def tyEq : Ty → Ty → Bool
  | .mk n m, .mk n' m' => tnEq n n' && tmEq m m'

/-- Embeds `Vec<Type>` equality: equal lengths and elementwise `tyEq`. -/
def tysEq : List Ty → List Ty → Bool
  | [],      []      => true
  | a :: ra, b :: rb => tyEq a b && tysEq ra rb
  | _,       _       => false
end

mutual
/-- Embeds `Display for TypeNode` (`visitor.rs` lines 52-76). -/
def tnShow : TypeNode → String
  | .Int    => "int"
  | .Float  => "float"
  | .Number => "number"
  | .Bool   => "bool"
  | .Str    => "string"
  | .Char   => "char"
  | .Nil    => "nil"
  | .Id n   => n
  | .Set content => "(" ++ tysShow content ++ ")"

/-- Embeds `Display for Type` (`visitor.rs` lines 172-176): mode then node. -/
def tyShow : Ty → String
  | .mk n m => tmShow m ++ tnShow n

/-- Element rendering inside a `Set` type: each element followed by a comma. -/
def tysShow : List Ty → String
  | []      => ""
  | t :: ts => tyShow t ++ "," ++ tysShow ts
end

/-- Embeds `Type::number()` (`visitor.rs` lines 143-145). -/
def Ty.number : Ty := .mk .Number .Regular
/-- Embeds `Type::int()`. -/
def Ty.int : Ty := .mk .Int .Regular
/-- Embeds `Type::float()`. -/
def Ty.float : Ty := .mk .Float .Regular
/-- Embeds `Type::string()` — node `Str`. -/
def Ty.string : Ty := .mk .Str .Regular
/-- Embeds `Type::char()`. -/
def Ty.char : Ty := .mk .Char .Regular
/-- Embeds `Type::bool()`. -/
def Ty.bool : Ty := .mk .Bool .Regular
/-- Embeds `Type::nil()` (`visitor.rs` lines 167-169): the `Nil`/`Regular`
placeholder pushed by `TypeTab::grow`. -/
def Ty.nil : Ty := .mk .Nil .Regular
/-- Embeds `Type::id(name)`. -/
def Ty.id (name : String) : Ty := .mk (.Id name) .Regular

/-! ## Type table (`typetab.rs`)

`TypeTab` holds `parent: Option<Rc<TypeTab>>` plus interior-mutable
`types: Vec<Type>` and `aliases: HashMap<String, Type>`.  The scope chain
is embedded as an inductive with a `root` (parent `None`) and `child`
(parent `Some`) constructor; mutation returns the updated chain.  The
`HashMap` is embedded as an association list whose insert replaces an
existing binding for the same key. -/

/-- Embeds `HashMap::insert`: replace the binding for `name` if present, else add it. -/
def insertAlias : List (String × Ty) → String → Ty → List (String × Ty)
  | [],             name, t => [(name, t)]
  | (k, v) :: rest, name, t =>
    if k = name then (name, t) :: rest else (k, v) :: insertAlias rest name t

/-- Embeds `HashMap::get`: the binding for `name`, if any. -/
def lookupAlias : List (String × Ty) → String → Option Ty
  | [],             _    => none
  | (k, v) :: rest, name => if k = name then some v else lookupAlias rest name

/-- Embeds `TypeTab` (`typetab.rs` lines 11-15): per-scope list of types indexed in
lockstep with the symbol table, an alias map, and an optional parent. -/
inductive TypeTab where
  | root  (types : List Ty) (aliases : List (String × Ty))
  | child (parent : TypeTab) (types : List Ty) (aliases : List (String × Ty))
deriving Repr

/-- The `types` list of the current (front) scope. -/
def TypeTab.types : TypeTab → List Ty
  | .root ts _    => ts
  | .child _ ts _ => ts

/-- The alias map of the current (front) scope. -/
def TypeTab.aliases : TypeTab → List (String × Ty)
  | .root _ al    => al
  | .child _ _ al => al

/-- Embeds `TypeTab::size` (`typetab.rs` lines 129-131): length of the current
scope's types list. -/
def TypeTab.size : TypeTab → Nat
  | .root ts _    => ts.length
  | .child _ ts _ => ts.length

/-- Embeds `TypeTab::grow` (`typetab.rs` lines 133-135): push `Type::nil()` onto the
current scope's types list. -/
def TypeTab.grow : TypeTab → TypeTab
  | .root ts al      => .root (ts ++ [Ty.nil]) al
  | .child p ts al   => .child p (ts ++ [Ty.nil]) al

/-- Embeds `TypeTab::set_type` (`typetab.rs` lines 34-49): write slot `index` at
scope distance `env_index`; errors on an out-of-range slot, and on a
distance that runs past the root. -/
def TypeTab.set_type : TypeTab → Nat → Nat → Ty → Except Diag TypeTab
  | .root ts al, index, 0, t =>
    if index < ts.length then .ok (.root (ts.set index t) al)
    else .error (make_error ("invalid type index: " ++ toString index))
  | .child p ts al, index, 0, t =>
    if index < ts.length then .ok (.child p (ts.set index t) al)
    else .error (make_error ("invalid type index: " ++ toString index))
  | .root _ _, _, e + 1, _ =>
    .error (make_error ("invalid type env index: " ++ toString (e + 1)))
  | .child p ts al, index, e + 1, t =>
    (p.set_type index e t).map (fun p2 => .child p2 ts al)

/-- Embeds `TypeTab::get_type` (`typetab.rs` lines 51-63): read slot `index` at
scope distance `env_index`; errors on an out-of-range slot, and on a
distance that runs past the root (message formats the slot index). -/
def TypeTab.get_type : TypeTab → Nat → Nat → Except Diag Ty
  | .root ts _, index, 0 =>
    match ts.get? index with
    | some v => .ok v
    | none   => .error (make_error ("invalid type index: " ++ toString index))
  | .child _ ts _, index, 0 =>
    match ts.get? index with
    | some v => .ok v
    | none   => .error (make_error ("invalid type index: " ++ toString index))
  | .root _ _, index, _ + 1 =>
    .error (make_error ("invalid type index: " ++ toString index))
  | .child p _ _, index, e + 1 => p.get_type index e

/-- Embeds `TypeTab::set_alias` (`typetab.rs` lines 65-82): insert an alias at
scope distance `env_index`; on a distance that runs past the root it
inserts into the root's alias map and still succeeds. -/
def TypeTab.set_alias : TypeTab → Nat → String → Ty → Except Diag TypeTab
  | .root ts al, 0, name, t => .ok (.root ts (insertAlias al name t))
  | .child p ts al, 0, name, t => .ok (.child p ts (insertAlias al name t))
  | .root ts al, _ + 1, name, t => .ok (.root ts (insertAlias al name t))
  | .child p ts al, e + 1, name, t =>
    (p.set_alias e name t).map (fun p2 => .child p2 ts al)

/-- Embeds `TypeTab::get_alias` (`typetab.rs` lines 84-99): look an alias up at
scope distance `env_index`; on a distance that runs past the root it looks
it up in the root's alias map. -/
def TypeTab.get_alias : TypeTab → String → Nat → Except Diag Ty
  | .root _ al, name, 0 =>
    match lookupAlias al name with
    | some v => .ok v
    | none   => .error (make_error ("invalid type: " ++ name))
  | .child _ _ al, name, 0 =>
    match lookupAlias al name with
    | some v => .ok v
    | none   => .error (make_error ("invalid type: " ++ name))
  | .root _ al, name, _ + 1 =>
    match lookupAlias al name with
    | some v => .ok v
    | none   => .error (make_error ("invalid type: " ++ name))
  | .child p _ _, name, e + 1 => p.get_alias name e

/-- Number of parent links of a type-table chain (0 at the root). -/
def TypeTab.parentLinks : TypeTab → Nat
  | .root _ _     => 0
  | .child p _ _  => p.parentLinks + 1

/-- The parentless root table of a chain. -/
def TypeTab.rootOf : TypeTab → TypeTab
  | .root ts al   => .root ts al
  | .child p _ _  => p.rootOf

/-- Apply `f` to the alias map of the parentless root table, leaving every
types list and every non-root alias map untouched. -/
def TypeTab.mapRootAliases : TypeTab → (List (String × Ty) → List (String × Ty)) → TypeTab
  | .root ts al,    f => .root ts (f al)
  | .child p ts al, f => .child (p.mapRootAliases f) ts al

/-! ## Symbol table

The symbol-table module is not under `src/`.  Modelled from the spec:
"an ordered list of declared names local to a scope, plus an exclusive
back-reference to the parent scope (absent only at the global scope).  A
name resolves to a (slot index within its owning scope, scope distance
from the querying scope) pair ... Declaring a name appends it to the
current scope's list", with `typetab.rs`'s comment noting that lookup goes
through a per-scope name → index hash map (so the most recent registration
of a name wins). -/

/-- Modelled from the spec: the symbol-table scope chain, mirroring the
type table's shape (`root` = global scope). -/
inductive SymTab where
  | root  (names : List String)
  | child (parent : SymTab) (names : List String)
deriving Repr

/-- The name list of the current (front) scope. -/
def SymTab.names : SymTab → List String
  | .root ns    => ns
  | .child _ ns => ns

/-- Number of name slots of the current (front) scope. -/
def SymTab.size : SymTab → Nat
  | .root ns    => ns.length
  | .child _ ns => ns.length

/-- Modelled from the spec: `add_name` appends the name to the current
scope's list and returns its slot index. -/
def SymTab.add_name : SymTab → String → Nat × SymTab
  | .root ns,    name => (ns.length, .root (ns ++ [name]))
  | .child p ns, name => (ns.length, .child p (ns ++ [name]))

/-- Index of the most recent occurrence of `name` in a scope's name list
(hash-map semantics: a re-registered name resolves to its newest slot). -/
def lastIndexOf : List String → String → Option Nat
  | [],        _    => none
  | n :: rest, name =>
    match lastIndexOf rest name with
    | some i => some (i + 1)
    | none   => if n = name then some 0 else none

/-- Modelled from the spec: `get_name` resolves a name to a
(slot index, scope distance) pair by walking the scope chain upward;
`none` when no enclosing scope declares the name. -/
def SymTab.get_name : SymTab → String → Option (Nat × Nat)
  | .root ns, name =>
    (lastIndexOf ns name).map (fun i => (i, 0))
  | .child p ns, name =>
    match lastIndexOf ns name with
    | some i => some (i, 0)
    | none   => (p.get_name name).map (fun r => (r.1, r.2 + 1))

/-! ## Abstract syntax tree

The parser/AST module is not under `src/`.  Modelled from the spec:
statements are `Expression | Variable(type, target, optional initializer) |
Constant(type, target, initializer)`; expressions are identifiers,
literals, `Set`, `Block`, functions, calls and binary operations, each
carrying a `Pos`.  Literal payloads are never inspected by the checker, so
the numeric payload is kept as its lexeme text. -/

mutual
inductive ExpressionNode where
  | Identifier (name : String)
  | Number (lexeme : String)
  | StringLit (value : String)
  | CharLit (value : Char)
  | BoolLit (value : Bool)
  | Set (content : List Expression)
  | Block (statements : List Statement)
  | Function (params : List (String × Ty)) (ret : Ty) (body : Expression)
  | Call (callee : Expression) (args : List Expression)
  | BinaryOp (op : String) (lhs : Expression) (rhs : Expression)
deriving Repr

inductive Expression where
  | mk (node : ExpressionNode) (pos : Pos)
deriving Repr

inductive StatementNode where
  | Expression (expression : Expression)
  | Variable (ty : Ty) (left : Expression) (right : Option Expression)
  | Constant (ty : Ty) (left : Expression) (right : Expression)
deriving Repr

inductive Statement where
  | mk (node : StatementNode) (pos : Pos)
deriving Repr
end

def Expression.node : Expression → ExpressionNode
  | .mk n _ => n

def Expression.pos : Expression → Pos
  | .mk _ p => p

def Statement.node : Statement → StatementNode
  | .mk n _ => n

/-! ## Visitor (semantic checker, `visitor.rs` lines 180-417)

`Visitor` holds the parallel symbol/type tables and the source file name
(used in diagnostics).  Rust mutates the visitor in place; here every
visit function returns the updated visitor, and a first error aborts the
pass (`Except`), matching the fail-fast contract. -/

structure Visitor where
  symtab  : SymTab
  typetab : TypeTab
  file    : String
deriving Repr

/-- The `Set`-target registration loop shared verbatim by `visit_variable`
(`visitor.rs` lines 298-312) and `visit_constant` (lines 364-378): register
each identifier element as a new symbol; a non-identifier element fails
with "can't declare non-identifier" at that element's position. -/
def declare_set (v : Visitor) : List Expression → Except Diag Visitor
  | [] => .ok v
  | e :: rest =>
    match e with
    | .mk (.Identifier name) _ =>
      declare_set { v with symtab := (v.symtab.add_name name).2 } rest
    | .mk _ pos =>
      .error ⟨"can't declare non-identifier", some v.file, some pos⟩

/-- Embeds `Visitor::type_expression` (`visitor.rs` lines 397-416): syntactic
literal-driven inference; identifiers read the type table via scope lookup,
literals map to their fixed type, numeric literals to the generic `Number`
type, everything else to `Nil`. -/
def type_expression (v : Visitor) (e : Expression) : Except Diag Ty :=
  match e with
  | .mk node _ =>
    match node with
    | .Identifier name =>
      match v.symtab.get_name name with
      | some (index, envIndex) => v.typetab.get_type index envIndex
      | none => .error (make_error "unreachable")  -- unreachable!() in the source
    | .StringLit _ => .ok Ty.string
    | .CharLit _   => .ok Ty.char
    | .BoolLit _   => .ok Ty.bool
    | .Number _    => .ok Ty.number
    | _            => .ok Ty.nil

/-- The "mismatched types" diagnostic text of `visitor.rs` lines 282 and
351: expected the declared node, got the inferred type. -/
def mismatchMsg (declared : Ty) (inferred : Ty) : String :=
  "mismatched types, expected type `" ++ tnShow declared.node ++ "` got `"
    ++ tyShow inferred ++ "`"

/-- The symbol-slot resolution shared by the single-identifier arms of
`visit_variable` (`visitor.rs` lines 265-269) and `visit_constant` (lines
335-339): reuse the slot when the name already resolves, otherwise
register it. -/
def resolveSlot (s : SymTab) (name : String) : Nat × SymTab :=
  match s.get_name name with
  | some (index, _) => (index, s)
  | none            => s.add_name name

mutual
/-- Embeds `Visitor::visit_statement` (`visitor.rs` lines 205-221): dispatch on
the statement node; declarations whose target is neither an identifier nor
a `Set` are silently accepted without visiting. -/
def visit_statement (v : Visitor) (s : Statement) : Except Diag Visitor :=
  match s with
  | .mk (.Expression e) _ => visit_expression v e
  | .mk (.Variable ty left right) _ =>
    match left with
    | .mk (.Identifier nm) lp =>
      visit_variable v (.Variable ty (.mk (.Identifier nm) lp) right)
    | .mk (.Set es) lp =>
      visit_variable v (.Variable ty (.mk (.Set es) lp) right)
    | _ => .ok v
  | .mk (.Constant ty left right) _ =>
    match left with
    | .mk (.Identifier nm) lp =>
      visit_constant v (.Constant ty (.mk (.Identifier nm) lp) right)
    | .mk (.Set es) lp =>
      visit_constant v (.Constant ty (.mk (.Set es) lp) right)
    | _ => .ok v
termination_by sizeOf s

/-- Embeds `Visitor::visit_expression` (`visitor.rs` lines 223-257): identifiers
must resolve in the scope chain; `Set` and `Block` recurse; everything
else succeeds with no side effect. -/
def visit_expression (v : Visitor) (e : Expression) : Except Diag Visitor :=
  match e with
  | .mk node pos =>
    match node with
    | .Identifier name =>
      if (v.symtab.get_name name).isNone then
        .error ⟨"no such value `" ++ name ++ "` in this scope",
                some v.file, some pos⟩
      else
        .ok v
    | .Set content => visit_expr_list v content
    | .Block statements => visit_stmt_list v statements
    | _ => .ok v
termination_by sizeOf e

/-- The `for` loop of the `Set` arm of `visit_expression`. -/
def visit_expr_list (v : Visitor) : List Expression → Except Diag Visitor
  | [] => .ok v
  | e :: rest =>
    match visit_expression v e with
    | .ok v2    => visit_expr_list v2 rest
    | .error d  => .error d
termination_by l => sizeOf l

/-- The `for` loop of the `Block` arm of `visit_expression`. -/
def visit_stmt_list (v : Visitor) : List Statement → Except Diag Visitor
  | [] => .ok v
  | s :: rest =>
    match visit_statement v s with
    | .ok v2    => visit_stmt_list v2 rest
    | .error d  => .error d
termination_by l => sizeOf l

/-- Embeds `Visitor::visit_variable` (`visitor.rs` lines 259-327): single
identifier target: resolve or create the symbol slot, grow the type table,
then check the initializer against the declared type and assign the slot's
type; `Set` target: register each identifier element; any other target
fails.  The non-`Variable` case is `unreachable!()` in the source. -/
def visit_variable (v : Visitor) (stmt : StatementNode) : Except Diag Visitor :=
  match stmt with
  | .Variable variableType left right =>
    match left with
    | .mk (.Identifier name) _ =>
      let resolved : Nat × SymTab := resolveSlot v.symtab name
      let v1 : Visitor := { v with symtab := resolved.2, typetab := v.typetab.grow }
      match right with
      | some r =>
        match visit_expression v1 r with
        | .error d => .error d
        | .ok v2 =>
          match type_expression v2 r with
          | .error d => .error d
          | .ok rightType =>
            if !(tnEq variableType.node .Nil) then
              if !(tyEq variableType rightType) then
                .error ⟨mismatchMsg variableType rightType,
                        some v2.file, some r.pos⟩
              else
                (v2.typetab.set_type resolved.1 0 variableType).map
                  (fun tt => { v2 with typetab := tt })
            else
              (v2.typetab.set_type resolved.1 0 rightType).map
                (fun tt => { v2 with typetab := tt })
      | none =>
        (v1.typetab.set_type resolved.1 0 variableType).map
          (fun tt => { v1 with typetab := tt })
    | .mk (.Set names) _ => declare_set v names
    | .mk _ lpos =>
      .error ⟨"unexpected variable declaration", some v.file, some lpos⟩
  | _ => .ok v  -- unreachable!() in the source
termination_by sizeOf stmt

/-- Embeds `Visitor::visit_constant` (`visitor.rs` lines 329-393): identical to
`visit_variable` except the initializer is mandatory and the fallback
message says "unexpected constant declaration". -/
def visit_constant (v : Visitor) (stmt : StatementNode) : Except Diag Visitor :=
  match stmt with
  | .Constant constantType left right =>
    match left with
    | .mk (.Identifier name) _ =>
      let resolved : Nat × SymTab := resolveSlot v.symtab name
      let v1 : Visitor := { v with symtab := resolved.2, typetab := v.typetab.grow }
      match visit_expression v1 right with
      | .error d => .error d
      | .ok v2 =>
        match type_expression v2 right with
        | .error d => .error d
        | .ok rightType =>
          if !(tnEq constantType.node .Nil) then
            if !(tyEq constantType rightType) then
              .error ⟨mismatchMsg constantType rightType,
                      some v2.file, some right.pos⟩
            else
              (v2.typetab.set_type resolved.1 0 constantType).map
                (fun tt => { v2 with typetab := tt })
          else
            (v2.typetab.set_type resolved.1 0 rightType).map
              (fun tt => { v2 with typetab := tt })
    | .mk (.Set names) _ => declare_set v names
    | .mk _ lpos =>
      .error ⟨"unexpected constant declaration", some v.file, some lpos⟩
  | _ => .ok v  -- unreachable!() in the source
termination_by sizeOf stmt
end

/-! ## Tokenizer (`tokenizer.rs`)

The tokenizer keeps a character cursor (`index`), a (line, column)
position, the source lines (for diagnostic slicing of the EOF token) and a
stack of snapshots.  `Vec::push`/`Vec::pop` at the end of the Rust vector
are embedded as cons/uncons at the head of a list. -/

/-- Token kinds.  Modelled from the spec: integer, float, string,
raw-string, char and boolean literals, identifiers, keywords, operators,
symbols and end-of-input; only `EOF` is built by `tokenizer.rs` itself. -/
inductive TokenType where
  | IntLiteral
  | FloatLiteral
  | StringLiteral
  | RawStringLiteral
  | CharLiteral
  | BoolLiteral
  | Identifier
  | Keyword
  | Operator
  | Symbol
  | EOF
deriving Repr, DecidableEq

/-- Modelled from the spec: a token as built by
`Token::new(token_type, (line_number, line_text), (column, length), lexeme)`
in `try_match_token`. -/
structure Token where
  tokenType : TokenType
  line      : Nat × String
  slice     : Nat × Nat
  lexeme    : String
deriving Repr, DecidableEq

/-- Embeds `Snapshot` (`tokenizer.rs` lines 4-7): a saved cursor index and
(line, column) position. -/
structure Snapshot where
  index : Nat
  pos   : Nat × Nat
deriving Repr, DecidableEq

/-- Embeds `Tokenizer` (`tokenizer.rs` lines 20-27): position, cursor index, the
character sequence, the snapshot stack, and the source's lines (the
`&Source` collaborator, kept only for the EOF token's line slice). -/
structure Tokenizer where
  pos       : Nat × Nat
  index     : Nat
  items     : List Char
  snapshots : List Snapshot
  lines     : List String
deriving Repr, DecidableEq

/-- Embeds `Tokenizer::new` (`tokenizer.rs` lines 30-39). -/
def Tokenizer.new (lines : List String) (items : List Char) : Tokenizer :=
  { pos := (0, 0), index := 0, items := items, snapshots := [], lines := lines }

/-- Embeds `Tokenizer::end` (`tokenizer.rs` lines 41-43); named `atEnd` because
`end` is a Lean keyword. -/
def Tokenizer.atEnd (t : Tokenizer) : Bool :=
  t.index ≥ t.items.length

/-- Embeds `Tokenizer::advance` (`tokenizer.rs` lines 45-58): inspects the
character at `index + 1`; on a newline it adds 1 to the line and 0 to the
column, otherwise it adds 1 to the column; then increments the index. -/
def Tokenizer.advance (t : Tokenizer) : Tokenizer :=
  let pos :=
    match t.items.get? (t.index + 1) with
    | some item =>
      if item = '\n' then (t.pos.1 + 1, t.pos.2 + 0) else (t.pos.1, t.pos.2 + 1)
    | none => t.pos
  { t with pos := pos, index := t.index + 1 }

/-- Embeds `Tokenizer::advance_n` (`tokenizer.rs` lines 60-64): `n` successive
calls to `advance`. -/
def Tokenizer.advance_n : Tokenizer → Nat → Tokenizer
  | t, 0     => t
  | t, n + 1 => (t.advance).advance_n n

/-- Embeds `Tokenizer::peek_n` (`tokenizer.rs` lines 70-72). -/
def Tokenizer.peek_n (t : Tokenizer) (n : Nat) : Option Char :=
  t.items.get? (t.index + n)

/-- Embeds `Tokenizer::peek` (`tokenizer.rs` lines 74-76). -/
def Tokenizer.peek (t : Tokenizer) : Option Char :=
  t.peek_n 0

/-- Embeds `Tokenizer::take_snapshot` (`tokenizer.rs` lines 78-80). -/
def Tokenizer.take_snapshot (t : Tokenizer) : Tokenizer :=
  { t with snapshots := ⟨t.index, t.pos⟩ :: t.snapshots }

/-- Embeds `Tokenizer::rollback_snapshot` (`tokenizer.rs` lines 86-90): pop the
newest snapshot and restore index and position from it; the source's
`.unwrap()` panics on an empty stack, embedded as `none`. -/
def Tokenizer.rollback_snapshot (t : Tokenizer) : Option Tokenizer :=
  match t.snapshots with
  | []        => none
  | s :: rest => some { t with index := s.index, pos := s.pos, snapshots := rest }

/-- Embeds `Tokenizer::commit_snapshot` (`tokenizer.rs` lines 92-94): drop the
newest snapshot (`Vec::pop` ignoring the value). -/
def Tokenizer.commit_snapshot (t : Tokenizer) : Tokenizer :=
  { t with snapshots := t.snapshots.tail }

/-- The matcher's view of the tokenizer: the cursor it may move.
Modelled from the spec: a matcher "attempts to consume a specific lexeme
shape from the cursor, reporting match, no-match, or hard error" — it
reads the character sequence and moves the index/position, and does not
touch the snapshot stack. -/
structure Cursor where
  index : Nat
  pos   : Nat × Nat
deriving Repr, DecidableEq

/-- Modelled from the spec: a pluggable matcher.  Given the character
sequence and the cursor it returns a hard error (`Except.error`), a match
(`some token` plus the advanced cursor) or no match (`none` plus wherever
the attempt left the cursor). -/
def Matcher := List Char → Cursor → Except Unit (Option Token × Cursor)

/-- Write a matcher's resulting cursor back into the tokenizer state. -/
def Tokenizer.withCursor (t : Tokenizer) (c : Cursor) : Tokenizer :=
  { t with index := c.index, pos := c.pos }

/-- Embeds `Tokenizer::try_match_token` (`tokenizer.rs` lines 100-117): at
end-of-input, build an EOF token from the current position and the line
text `source.lines[pos.0]` (a panic — `none` — if that line does not
exist); otherwise take a snapshot, run the matcher, commit on a match,
roll back on no match, and propagate a hard error without touching the
snapshot taken. -/
def Tokenizer.try_match_token (t : Tokenizer) (matcher : Matcher) :
    Option (Except Unit (Option Token × Tokenizer)) :=
  if t.atEnd then
    match t.lines.get? t.pos.1 with
    | some line => some (.ok (some ⟨.EOF, (t.pos.1, line), (t.pos.2, 0), ""⟩, t))
    | none      => none
  else
    let t1 := t.take_snapshot
    match matcher t1.items ⟨t1.index, t1.pos⟩ with
    | .error e => some (.error e)
    | .ok (some tok, c) => some (.ok (some tok, (t1.withCursor c).commit_snapshot))
    | .ok (none, c) =>
      match (t1.withCursor c).rollback_snapshot with
      | some t2 => some (.ok (none, t2))
      | none    => none

/-! ## Concrete states used by witnesses and counterexamples -/

/-- An empty global checking state, as `Visitor::new` builds it:
`SymTab::global()` and `TypeTab::global()`. -/
def emptyVisitor : Visitor := ⟨.root [], .root [] [], "main.rs/testing.wu"⟩

/-- The numeric literal `123`. -/
def lit123 : Expression := .mk (.Number "123") (1, 9)

/-! ## Theorems for the claims -/

/-- C4: The relaxed `TypeMode` comparison satisfies
`Regular == Immutable` and `Immutable == Regular`; `Optional` compares
equal to everything in both directions (including `Undeclared`);
`Undeclared == Undeclared` fails under the relaxed comparison; and the
strict `TypeMode::check` is exactly the reflexive relation on modes. -/
theorem typeMode_lattice_c4 :
    tmEq .Regular .Immutable = true ∧
    tmEq .Immutable .Regular = true ∧
    (∀ x : TypeMode, tmEq .Optional x = true ∧ tmEq x .Optional = true) ∧
    tmEq .Undeclared .Undeclared = false ∧
    (∀ a b : TypeMode, TypeMode.check a b = decide (a = b)) := by
  refine ⟨rfl, rfl, ?_, rfl, ?_⟩
  · intro x; cases x <;> exact ⟨rfl, rfl⟩
  · intro a b; cases a <;> cases b <;> rfl

/-- C8: The relaxed `TypeNode` comparison widens `Number` to both `Int`
and `Float` in either direction but keeps `Int` and `Float` apart; and
`type_expression` infers every numeric literal as the generic
`Number`/`Regular` type. -/
theorem number_widening_c8 :
    tnEq .Number .Int = true ∧ tnEq .Number .Float = true ∧
    tnEq .Int .Number = true ∧ tnEq .Float .Number = true ∧
    tnEq .Int .Float = false ∧ tnEq .Float .Int = false ∧
    (∀ (v : Visitor) (lexeme : String) (p : Pos),
      type_expression v (.mk (.Number lexeme) p) = .ok Ty.number) :=
  ⟨rfl, rfl, rfl, rfl, rfl, rfl, fun _ _ _ => rfl⟩

/-- C5 is false of the code (`code_bug`): `advance` inspects the
character at `index + 1` — not the character being consumed at `index` —
and on a newline adds `0` to the column instead of resetting it.  On
`items = ['a', '\n']` at index 0, position (0, 0): the consumed character
is `'a'`, so the claim requires the position to become (0, 1), but the
code moves it to (1, 0) — the line advances although no newline was
consumed.  (The `advance_n(k) = advance^k` half of the claim does hold;
`advance_n` is literally the k-fold iteration.) -/
theorem advance_divergence_c5 :
    (Tokenizer.new ["a"] ['a', '\n']).advance.index = 1 ∧
    (Tokenizer.new ["a"] ['a', '\n']).advance.pos = (1, 0) ∧
    (Tokenizer.new ["a"] ['a', '\n']).items.get?
      (Tokenizer.new ["a"] ['a', '\n']).index = some 'a' ∧
    (1, 0) ≠ ((0 : Nat), (1 : Nat)) := by
  refine ⟨rfl, rfl, rfl, by decide⟩

/-- C3: Backtracking is exact: whenever `try_match_token` returns the
"nothing matched" outcome, the tokenizer's character index and its
(line, column) position equal their values before the call — the snapshot
taken at entry is restored verbatim by `rollback_snapshot`. -/
theorem backtracking_exact_c3 (m : Matcher) (t t' : Tokenizer)
    (h : t.try_match_token m = some (.ok (none, t'))) :
    t'.index = t.index ∧ t'.pos = t.pos := by
  unfold Tokenizer.try_match_token at h
  by_cases hend : t.atEnd
  · rw [if_pos hend] at h
    cases hget : t.lines.get? t.pos.1 <;> rw [hget] at h <;> simp at h
  · rw [if_neg hend] at h
    simp only [Tokenizer.take_snapshot, Tokenizer.withCursor,
      Tokenizer.rollback_snapshot] at h
    split at h
    · simp at h
    · simp at h
    · simp only [Option.some.injEq, Except.ok.injEq, Prod.mk.injEq] at h
      obtain ⟨-, rfl⟩ := h
      exact ⟨rfl, rfl⟩

/-- A matcher that reports "no match" and leaves the cursor where the
attempt put it; used to witness the backtracking theorem. -/
def noMatchMatcher : Matcher := fun _ c => .ok (none, c)

/-- A small tokenizer state over the two-character input `ab`. -/
def tAB : Tokenizer := Tokenizer.new ["ab"] ['a', 'b']

theorem backtracking_exact_c3_witness :
    tAB.index = tAB.index ∧ tAB.pos = tAB.pos :=
  backtracking_exact_c3 noMatchMatcher tAB tAB rfl

/-- C9 counterexample: the claim is false as stated.  The tokenizer over
the empty source (no characters, and — as `str::lines` yields for the
empty string — no lines) is at end-of-input from the start, yet
`try_match_token` does not succeed with an EOF token there: building the
token's line slice `source.lines[pos.0]` indexes `lines[0]` of an empty
list, a panic (embedded as `none`), for the concrete no-match matcher. -/
theorem eof_token_c9_counterexample :
    (Tokenizer.new [] []).atEnd = true ∧
    (Tokenizer.new [] []).try_match_token noMatchMatcher = none :=
  ⟨rfl, rfl⟩

/-- C9 (amended): at end-of-input (cursor index at or past the character
count) `try_match_token` never consults the matcher — for every matcher:
when the current line number indexes an existing source line, it succeeds
with an EOF token built from the current position; when the line number is
outside the source's lines (reachable end states: an empty source, or any
source whose character sequence ends in a newline), the construction of
the EOF token's line slice `lines[pos.0]` panics instead of returning. -/
theorem eof_token_c9_amended :
    (∀ (m : Matcher) (t : Tokenizer) (line : String),
      t.atEnd = true → t.lines.get? t.pos.1 = some line →
      t.try_match_token m =
        some (.ok (some ⟨.EOF, (t.pos.1, line), (t.pos.2, 0), ""⟩, t))) ∧
    (∀ (m : Matcher) (t : Tokenizer),
      t.atEnd = true → t.lines.get? t.pos.1 = none →
      t.try_match_token m = none) := by
  constructor
  · intro m t line hend hline
    unfold Tokenizer.try_match_token
    rw [if_pos hend, hline]
  · intro m t hend hline
    unfold Tokenizer.try_match_token
    rw [if_pos hend, hline]

/-- The empty-but-one-line source: no characters, a single empty line. -/
def tEmpty : Tokenizer := Tokenizer.new [""] []

theorem eof_token_c9_witness :
    tEmpty.try_match_token noMatchMatcher =
      some (.ok (some ⟨.EOF, (0, ""), (0, 0), ""⟩, tEmpty)) ∧
    ((Tokenizer.new ["a"] ['a', '\n']).advance_n 2).try_match_token
      noMatchMatcher = none :=
  ⟨eof_token_c9_amended.1 noMatchMatcher tEmpty "" rfl rfl,
   eof_token_c9_amended.2 noMatchMatcher
     ((Tokenizer.new ["a"] ['a', '\n']).advance_n 2) rfl rfl⟩

/-- C10: Alias access saturates at the root while typed-slot access
fails: for any scope distance exceeding the chain's parent-link count,
`set_alias` succeeds and writes into the parentless root table's alias map
(all types lists and non-root alias maps untouched), `get_alias` reads
from the root table (it behaves as `get_alias` at distance 0 on the root),
while `get_type` and `set_type` return an "invalid ... index" error — and,
being error returns, leave every table unchanged. -/
theorem alias_saturation_c10 (tab : TypeTab) (d : Nat) (name : String)
    (t : Ty) (i : Nat) (h : tab.parentLinks < d) :
    tab.set_alias d name t =
      .ok (tab.mapRootAliases (fun al => insertAlias al name t)) ∧
    tab.get_alias name d = tab.rootOf.get_alias name 0 ∧
    tab.get_type i d = .error (make_error ("invalid type index: " ++ toString i)) ∧
    (∃ msg, tab.set_type i d t = .error msg) := by
  induction tab generalizing d with
  | root ts al =>
    cases d with
    | zero => exact absurd h (by simp [TypeTab.parentLinks])
    | succ e =>
      refine ⟨rfl, rfl, rfl, ⟨_, rfl⟩⟩
  | child p ts al ih =>
    cases d with
    | zero => exact absurd h (by simp [TypeTab.parentLinks])
    | succ e =>
      have hp : p.parentLinks < e := by
        simpa [TypeTab.parentLinks, Nat.succ_lt_succ_iff] using h
      obtain ⟨ha, hg, hgt, ⟨msg, hst⟩⟩ := ih e hp
      refine ⟨?_, ?_, ?_, ?_⟩
      · show (p.set_alias e name t).map _ = _
        rw [ha]; rfl
      · show p.get_alias name e = _
        rw [hg]; rfl
      · show p.get_type i e = _
        exact hgt
      · show ∃ m, (p.set_type i e t).map _ = .error m
        exact ⟨msg, by rw [hst]; rfl⟩

/-- A two-scope chain: a child of the root, each with one type slot. -/
def tabChild : TypeTab := .child (.root [Ty.int] []) [Ty.bool] []

/-! ### Helper lemmas about the scope-table operations -/

theorem add_name_snd_size (s : SymTab) (n : String) :
    ((s.add_name n).2).size = s.size + 1 := by
  cases s <;> simp [SymTab.add_name, SymTab.size]

theorem add_name_snd_names (s : SymTab) (n : String) :
    ((s.add_name n).2).names = s.names ++ [n] := by
  cases s <;> simp [SymTab.add_name, SymTab.names]

theorem add_name_fst (s : SymTab) (n : String) :
    (s.add_name n).1 = s.size := by
  cases s <;> simp [SymTab.add_name, SymTab.size]

theorem grow_size (t : TypeTab) : t.grow.size = t.size + 1 := by
  cases t <;> simp [TypeTab.grow, TypeTab.size]

theorem grow_types (t : TypeTab) : t.grow.types = t.types ++ [Ty.nil] := by
  cases t <;> simp [TypeTab.grow, TypeTab.types]

theorem set_type_zero_ok (t : TypeTab) (i : Nat) (ty : Ty) (t' : TypeTab)
    (h : t.set_type i 0 ty = .ok t') :
    t'.size = t.size ∧ t'.types = t.types.set i ty := by
  cases t with
  | root ts al =>
    simp only [TypeTab.set_type] at h
    split at h
    · injection h with h2
      subst h2
      simp [TypeTab.size, TypeTab.types]
    · exact absurd h (by simp)
  | child p ts al =>
    simp only [TypeTab.set_type] at h
    split at h
    · injection h with h2
      subst h2
      simp [TypeTab.size, TypeTab.types]
    · exact absurd h (by simp)

theorem set_type_zero_of_lt (t : TypeTab) (i : Nat) (ty : Ty)
    (h : i < t.size) :
    ∃ t', t.set_type i 0 ty = .ok t' ∧ t'.types = t.types.set i ty := by
  cases t <;> simp_all [TypeTab.set_type, TypeTab.size, TypeTab.types]

theorem except_map_eq_ok {α β ε : Type} (f : α → β) (e : Except ε α) (b : β) :
    e.map f = .ok b ↔ ∃ a, e = .ok a ∧ f a = b := by
  cases e <;> simp [Except.map]

theorem alias_saturation_c10_witness :
    tabChild.set_alias 5 "T" Ty.int =
      .ok (tabChild.mapRootAliases (fun al => insertAlias al "T" Ty.int)) ∧
    tabChild.get_alias "T" 5 = tabChild.rootOf.get_alias "T" 0 ∧
    tabChild.get_type 0 5 = .error (make_error ("invalid type index: " ++ toString 0)) ∧
    (∃ msg, tabChild.set_type 0 5 Ty.int = .error msg) :=
  alias_saturation_c10 tabChild 5 "T" Ty.int 0 (by decide)


/-- C7: Checking an `Identifier` expression fails with the
undeclared-name diagnostic — naming the identifier, the file and the
expression's position — exactly when the name does not resolve anywhere in
the scope chain; when it resolves the check succeeds and returns the
visitor unchanged (symbol and type tables untouched). -/
theorem identifier_check_c7 (v : Visitor) (name : String) (p : Pos) :
    (v.symtab.get_name name = none →
      visit_expression v (.mk (.Identifier name) p) =
        .error ⟨"no such value `" ++ name ++ "` in this scope", some v.file, some p⟩) ∧
    (∀ i d, v.symtab.get_name name = some (i, d) →
      visit_expression v (.mk (.Identifier name) p) = .ok v) := by
  constructor
  · intro h
    simp [visit_expression, h]
  · intro i d h
    simp [visit_expression, h]

/-- A state in which `x` is declared at the global scope. -/
def vDecl : Visitor := ⟨.root ["x"], .root [Ty.int] [], "main.rs/testing.wu"⟩

theorem identifier_check_c7_witness :
    visit_expression vDecl (.mk (.Identifier "x") (3, 0)) = .ok vDecl ∧
    visit_expression vDecl (.mk (.Identifier "z") (4, 0)) =
      .error ⟨"no such value `" ++ "z" ++ "` in this scope",
              some vDecl.file, some (4, 0)⟩ :=
  ⟨(identifier_check_c7 vDecl "x" (3, 0)).2 0 0 rfl,
   (identifier_check_c7 vDecl "z" (4, 0)).1 rfl⟩

/-! ### Helpers for the `Set`-target registration path -/

/-- Whether an expression is a bare identifier. -/
def isIdentE : Expression → Bool
  | .mk (.Identifier _) _ => true
  | _ => false

/-- The name of a bare identifier expression, if it is one. -/
def identNameOf : Expression → Option String
  | .mk (.Identifier n) _ => some n
  | _ => none

/-- Register a list of names in order. -/
def addNames : SymTab → List String → SymTab
  | s, []      => s
  | s, n :: ns => addNames (s.add_name n).2 ns

theorem addNames_names (ns : List String) (s : SymTab) :
    (addNames s ns).names = s.names ++ ns := by
  induction ns generalizing s with
  | nil => simp [addNames]
  | cons n rest ih => simp [addNames, ih, add_name_snd_names]

theorem declare_set_all_idents (es : List Expression) (v : Visitor)
    (h : es.all isIdentE = true) :
    declare_set v es =
      .ok { v with symtab := addNames v.symtab (es.filterMap identNameOf) } := by
  induction es generalizing v with
  | nil => simp [declare_set, addNames]
  | cons e rest ih =>
    obtain ⟨node, pos⟩ := e
    cases node <;> simp_all [isIdentE, declare_set, identNameOf, addNames]

theorem declare_set_first_bad (pre : List Expression) (v : Visitor)
    (bad : Expression) (rest : List Expression)
    (hpre : pre.all isIdentE = true) (hbad : isIdentE bad = false) :
    declare_set v (pre ++ bad :: rest) =
      .error ⟨"can't declare non-identifier", some v.file, some bad.pos⟩ := by
  induction pre generalizing v with
  | nil =>
    obtain ⟨node, pos⟩ := bad
    cases node <;> simp_all [isIdentE, declare_set, Expression.pos]
  | cons e pre' ih =>
    obtain ⟨node, pos⟩ := e
    cases node <;> simp_all [isIdentE, declare_set]

theorem declare_set_ok_sizes (es : List Expression) (v v' : Visitor)
    (h : declare_set v es = .ok v') :
    v'.symtab.size = v.symtab.size + es.length ∧ v'.typetab = v.typetab := by
  induction es generalizing v with
  | nil =>
    simp only [declare_set] at h
    injection h with h2
    subst h2
    simp
  | cons e rest ih =>
    obtain ⟨node, pos⟩ := e
    cases node
    case Identifier n =>
      simp only [declare_set] at h
      obtain ⟨h1, h2⟩ := ih _ h
      dsimp only at h1 h2
      refine ⟨?_, h2⟩
      rw [h1, add_name_snd_size]
      simp only [List.length_cons]
      omega
    all_goals (simp only [declare_set] at h; exact absurd h (by simp))

/-- On identifier targets `visit_constant` computes exactly what
`visit_variable` computes on the corresponding `Variable` statement with a
present initializer (their source bodies are identical there). -/
theorem visit_constant_ident_eq (v : Visitor) (ty : Ty) (nm : String)
    (lp : Pos) (r : Expression) :
    visit_constant v (.Constant ty (.mk (.Identifier nm) lp) r) =
      visit_variable v (.Variable ty (.mk (.Identifier nm) lp) (some r)) := by
  simp only [visit_constant, visit_variable]

/-- On `Set` targets both checkers run the same registration loop. -/
theorem visit_constant_set_eq (v : Visitor) (ty : Ty) (es : List Expression)
    (lp : Pos) (r : Expression) :
    visit_constant v (.Constant ty (.mk (.Set es) lp) r) = declare_set v es := by
  simp only [visit_constant]

/-- The `Set`-target arm of `visit_variable` is the registration loop. -/
theorem visit_variable_set_eq (v : Visitor) (ty : Ty) (es : List Expression)
    (lp : Pos) (r : Option Expression) :
    visit_variable v (.Variable ty (.mk (.Set es) lp) r) = declare_set v es := by
  simp only [visit_variable]


/-- C6: Tuple-destructuring declarations: when every element of the
`Set` target is an identifier, checking a `Variable` or `Constant`
statement succeeds and appends each identifier, in order, to the current
scope's name list; when some element is not an identifier, checking fails
with the "can't declare non-identifier" diagnostic at the (first) offending
element's position. -/
theorem tuple_destructuring_c6 :
    (∀ (v : Visitor) (ty : Ty) (es : List Expression) (p : Pos)
       (r : Option Expression) (rc : Expression),
      es.all isIdentE = true →
      visit_variable v (.Variable ty (.mk (.Set es) p) r) =
        .ok { v with symtab := addNames v.symtab (es.filterMap identNameOf) } ∧
      visit_constant v (.Constant ty (.mk (.Set es) p) rc) =
        .ok { v with symtab := addNames v.symtab (es.filterMap identNameOf) } ∧
      (addNames v.symtab (es.filterMap identNameOf)).names =
        v.symtab.names ++ es.filterMap identNameOf) ∧
    (∀ (v : Visitor) (ty : Ty) (pre : List Expression) (bad : Expression)
       (rest : List Expression) (p : Pos) (r : Option Expression) (rc : Expression),
      pre.all isIdentE = true → isIdentE bad = false →
      visit_variable v (.Variable ty (.mk (.Set (pre ++ bad :: rest)) p) r) =
        .error ⟨"can't declare non-identifier", some v.file, some bad.pos⟩ ∧
      visit_constant v (.Constant ty (.mk (.Set (pre ++ bad :: rest)) p) rc) =
        .error ⟨"can't declare non-identifier", some v.file, some bad.pos⟩) := by
  constructor
  · intro v ty es p r rc h
    refine ⟨?_, ?_, addNames_names _ _⟩
    · rw [visit_variable_set_eq]
      exact declare_set_all_idents es v h
    · rw [visit_constant_set_eq]
      exact declare_set_all_idents es v h
  · intro v ty pre bad rest p r rc hpre hbad
    constructor
    · rw [visit_variable_set_eq]
      exact declare_set_first_bad pre v bad rest hpre hbad
    · rw [visit_constant_set_eq]
      exact declare_set_first_bad pre v bad rest hpre hbad

/-- The target list of `(a, b, c)`. -/
def targetABC : List Expression :=
  [.mk (.Identifier "a") (2, 1), .mk (.Identifier "b") (2, 4),
   .mk (.Identifier "c") (2, 7)]

/-- The target list of `(a, 1, c)`: the second element is a numeric
literal, not an identifier. -/
def targetA1C : List Expression :=
  [.mk (.Identifier "a") (2, 1), .mk (.Number "1") (2, 4),
   .mk (.Identifier "c") (2, 7)]

/-- The tuple initializer `(1, 2, 3)`. -/
def tuple123 : Expression :=
  .mk (.Set [.mk (.Number "1") (2, 14), .mk (.Number "2") (2, 17),
             .mk (.Number "3") (2, 20)]) (2, 13)

theorem tuple_destructuring_c6_witness :
    (visit_variable emptyVisitor (.Variable Ty.nil (.mk (.Set targetABC) (2, 0))
        (some tuple123)) =
      .ok { emptyVisitor with
            symtab := addNames emptyVisitor.symtab (targetABC.filterMap identNameOf) } ∧
     visit_constant emptyVisitor (.Constant Ty.nil (.mk (.Set targetABC) (2, 0))
        tuple123) =
      .ok { emptyVisitor with
            symtab := addNames emptyVisitor.symtab (targetABC.filterMap identNameOf) } ∧
     (addNames emptyVisitor.symtab (targetABC.filterMap identNameOf)).names =
        emptyVisitor.symtab.names ++ targetABC.filterMap identNameOf) ∧
    (visit_variable emptyVisitor (.Variable Ty.nil
        (.mk (.Set ([.mk (.Identifier "a") (2, 1)] ++
          .mk (.Number "1") (2, 4) :: [.mk (.Identifier "c") (2, 7)])) (2, 0))
        (some tuple123)) =
      .error ⟨"can't declare non-identifier", some emptyVisitor.file,
              some (Expression.mk (.Number "1") (2, 4)).pos⟩) :=
  ⟨tuple_destructuring_c6.1 emptyVisitor Ty.nil targetABC (2, 0)
      (some tuple123) tuple123 rfl,
   (tuple_destructuring_c6.2 emptyVisitor Ty.nil
      [.mk (.Identifier "a") (2, 1)] (.mk (.Number "1") (2, 4))
      [.mk (.Identifier "c") (2, 7)] (2, 0) (some tuple123) tuple123
      rfl rfl).1⟩


/-! ### Slot resolution and type-slot placement lemmas -/

/-- Fresh-name resolution appends the name and yields the next slot index. -/
theorem resolveSlot_fresh (s : SymTab) (name : String)
    (h : s.get_name name = none) :
    resolveSlot s name = (s.size, (s.add_name name).2) := by
  cases s <;> simp_all [resolveSlot, SymTab.add_name, SymTab.size]

/-- Resolution of an already-resolvable name reuses its slot and leaves the
symbol table untouched. -/
theorem resolveSlot_found (s : SymTab) (name : String) (i d : Nat)
    (h : s.get_name name = some (i, d)) :
    resolveSlot s name = (i, s) := by
  simp [resolveSlot, h]

/-- Current-scope types-list length equals `TypeTab::size`. -/
theorem types_length (t : TypeTab) : t.types.length = t.size := by
  cases t <;> rfl

/-- Sizes after the single-identifier declaration path: whatever the
initializer checking does (assumed side-effect-free), a successful
`visit_variable` leaves the symbol table exactly as slot resolution left it
and has grown the current type-table scope by exactly one slot. -/
theorem visit_variable_ident_sizes (v : Visitor) (ty : Ty) (name : String)
    (p : Pos) (right : Option Expression) (v' : Visitor)
    (hinit : ∀ r, right = some r →
      visit_expression { v with symtab := (resolveSlot v.symtab name).2,
                                typetab := v.typetab.grow } r =
        .ok { v with symtab := (resolveSlot v.symtab name).2,
                     typetab := v.typetab.grow })
    (hok : visit_variable v (.Variable ty (.mk (.Identifier name) p) right) = .ok v') :
    v'.symtab = (resolveSlot v.symtab name).2 ∧
    v'.typetab.size = v.typetab.size + 1 := by
  rw [visit_variable.eq_def] at hok
  dsimp only at hok
  set vg : Visitor := { v with symtab := (resolveSlot v.symtab name).2,
                               typetab := v.typetab.grow } with hvg
  cases right with
  | none =>
    dsimp only at hok
    rw [except_map_eq_ok] at hok
    obtain ⟨tt, hset, hv⟩ := hok
    obtain ⟨hsz, -⟩ := set_type_zero_ok _ _ _ _ hset
    subst hv
    exact ⟨rfl, by rw [hsz]; exact grow_size v.typetab⟩
  | some r =>
    dsimp only at hok
    rw [hinit r rfl] at hok
    dsimp only at hok
    cases hte : type_expression vg r with
    | error d => rw [hte] at hok; simp at hok
    | ok rt =>
      rw [hte] at hok
      dsimp only at hok
      split at hok
      · split at hok
        · simp at hok
        · rw [except_map_eq_ok] at hok
          obtain ⟨tt, hset, hv⟩ := hok
          obtain ⟨hsz, -⟩ := set_type_zero_ok _ _ _ _ hset
          subst hv
          exact ⟨rfl, by rw [hsz]; exact grow_size v.typetab⟩
      · rw [except_map_eq_ok] at hok
        obtain ⟨tt, hset, hv⟩ := hok
        obtain ⟨hsz, -⟩ := set_type_zero_ok _ _ _ _ hset
        subst hv
        exact ⟨rfl, by rw [hsz]; exact grow_size v.typetab⟩

/-- The tuple declaration `(a, b, c) := (1, 2, 3)`. -/
def tupleStmt : StatementNode :=
  .Variable Ty.nil (.mk (.Set targetABC) (2, 0)) (some tuple123)

/-- C1 counterexample: the claimed lockstep invariant is false.  Checking
the tuple declaration `(a, b, c) := (1, 2, 3)` from the empty global state
succeeds and grows the scope's symbol table to three name slots while the
scope's type table keeps zero slots — after this declaration the two
tables do not have equal length. -/
theorem lockstep_c1_counterexample :
    visit_variable emptyVisitor tupleStmt =
      .ok ⟨.root ["a", "b", "c"], .root [] [], "main.rs/testing.wu"⟩ ∧
    (SymTab.root ["a", "b", "c"]).size ≠ (TypeTab.root ([] : List Ty) []).size := by
  constructor
  · simp [tupleStmt, targetABC, emptyVisitor, visit_variable, declare_set,
      SymTab.add_name]
  · decide

/-- C1 (amended): lockstep holds only on the single-identifier path with a
fresh name — there the symbol table and the type table of the current
scope each grow by exactly one slot.  Re-declaring an already-resolvable
single identifier grows only the type table (the symbol slot is reused),
and a `Set` (tuple) target grows only the symbol table (one slot per
element) while leaving the type table untouched; both for `visit_variable`
and `visit_constant`.  The initializer, where visited, is assumed to be
checking-neutral (it neither declares names nor fails), isolating the
declaration's own bookkeeping. -/
theorem lockstep_c1_amended :
    (∀ (v : Visitor) (ty : Ty) (name : String) (p : Pos)
       (right : Option Expression) (v' : Visitor),
      v.symtab.get_name name = none →
      (∀ r, right = some r →
        visit_expression { v with symtab := (resolveSlot v.symtab name).2,
                                  typetab := v.typetab.grow } r =
          .ok { v with symtab := (resolveSlot v.symtab name).2,
                       typetab := v.typetab.grow }) →
      visit_variable v (.Variable ty (.mk (.Identifier name) p) right) = .ok v' →
      v'.symtab.size = v.symtab.size + 1 ∧ v'.typetab.size = v.typetab.size + 1) ∧
    (∀ (v : Visitor) (ty : Ty) (name : String) (p : Pos)
       (right : Option Expression) (v' : Visitor) (i d : Nat),
      v.symtab.get_name name = some (i, d) →
      (∀ r, right = some r →
        visit_expression { v with symtab := (resolveSlot v.symtab name).2,
                                  typetab := v.typetab.grow } r =
          .ok { v with symtab := (resolveSlot v.symtab name).2,
                       typetab := v.typetab.grow }) →
      visit_variable v (.Variable ty (.mk (.Identifier name) p) right) = .ok v' →
      v'.symtab.size = v.symtab.size ∧ v'.typetab.size = v.typetab.size + 1) ∧
    (∀ (v : Visitor) (ty : Ty) (es : List Expression) (p : Pos)
       (r : Option Expression) (v' : Visitor),
      visit_variable v (.Variable ty (.mk (.Set es) p) r) = .ok v' →
      v'.symtab.size = v.symtab.size + es.length ∧ v'.typetab = v.typetab) ∧
    (∀ (v : Visitor) (ty : Ty) (name : String) (p : Pos)
       (r : Expression) (v' : Visitor),
      visit_expression { v with symtab := (resolveSlot v.symtab name).2,
                                typetab := v.typetab.grow } r =
        .ok { v with symtab := (resolveSlot v.symtab name).2,
                     typetab := v.typetab.grow } →
      visit_constant v (.Constant ty (.mk (.Identifier name) p) r) = .ok v' →
      ((v.symtab.get_name name = none → v'.symtab.size = v.symtab.size + 1) ∧
       (∀ i d, v.symtab.get_name name = some (i, d) →
          v'.symtab.size = v.symtab.size) ∧
       v'.typetab.size = v.typetab.size + 1)) ∧
    (∀ (v : Visitor) (ty : Ty) (es : List Expression) (p : Pos)
       (r : Expression) (v' : Visitor),
      visit_constant v (.Constant ty (.mk (.Set es) p) r) = .ok v' →
      v'.symtab.size = v.symtab.size + es.length ∧ v'.typetab = v.typetab) := by
  have hident := visit_variable_ident_sizes
  refine ⟨?_, ?_, ?_, ?_, ?_⟩
  · intro v ty name p right v' hfresh hinit hok
    obtain ⟨h1, h2⟩ := hident v ty name p right v' hinit hok
    refine ⟨?_, h2⟩
    rw [h1, resolveSlot_fresh _ _ hfresh, add_name_snd_size]
  · intro v ty name p right v' i d hfound hinit hok
    obtain ⟨h1, h2⟩ := hident v ty name p right v' hinit hok
    refine ⟨?_, h2⟩
    rw [h1, resolveSlot_found _ _ _ _ hfound]
  · intro v ty es p r v' hok
    rw [visit_variable_set_eq] at hok
    exact declare_set_ok_sizes es v v' hok
  · intro v ty name p r v' hinit hok
    rw [visit_constant_ident_eq] at hok
    have hinit' : ∀ r', some r = some r' →
        visit_expression { v with symtab := (resolveSlot v.symtab name).2,
                                  typetab := v.typetab.grow } r' =
          .ok { v with symtab := (resolveSlot v.symtab name).2,
                       typetab := v.typetab.grow } := by
      intro r' hr'
      injection hr' with hr'
      subst hr'
      exact hinit
    obtain ⟨h1, h2⟩ := hident v ty name p (some r) v' hinit' hok
    refine ⟨?_, ?_, h2⟩
    · intro hfresh
      rw [h1, resolveSlot_fresh _ _ hfresh, add_name_snd_size]
    · intro i d hfound
      rw [h1, resolveSlot_found _ _ _ _ hfound]
  · intro v ty es p r v' hok
    rw [visit_constant_set_eq] at hok
    exact declare_set_ok_sizes es v v' hok

/-- The state after checking `a: int = 123` from the empty global state. -/
def vAfterA : Visitor := ⟨.root ["a"], .root [Ty.int] [], "main.rs/testing.wu"⟩

theorem lockstep_c1_amended_witness :
    vAfterA.symtab.size = emptyVisitor.symtab.size + 1 ∧
    vAfterA.typetab.size = emptyVisitor.typetab.size + 1 :=
  lockstep_c1_amended.1 emptyVisitor Ty.int "a" (1, 0) (some lit123) vAfterA
    rfl
    (fun r h => by
      injection h with h
      subst h
      simp [visit_expression, lit123])
    (by simp +decide [visit_variable, visit_expression, type_expression,
      emptyVisitor, lit123, vAfterA, resolveSlot, SymTab.get_name, lastIndexOf,
      SymTab.add_name, TypeTab.grow, TypeTab.set_type, Ty.int, Ty.nil, Ty.number,
      Ty.node, Except.map])

/-- Computation of the single-identifier declaration path with a present,
checking-neutral initializer: after resolving the slot and growing the
type table, the checker either rejects on a declared/inferred mismatch or
assigns the slot's type. -/
theorem visit_variable_ident_compute (v : Visitor) (ty : Ty) (name : String)
    (p : Pos) (r : Expression) (rt : Ty)
    (hinit : visit_expression { v with symtab := (resolveSlot v.symtab name).2,
                                       typetab := v.typetab.grow } r =
      .ok { v with symtab := (resolveSlot v.symtab name).2,
                   typetab := v.typetab.grow })
    (htype : type_expression { v with symtab := (resolveSlot v.symtab name).2,
                                      typetab := v.typetab.grow } r = .ok rt) :
    visit_variable v (.Variable ty (.mk (.Identifier name) p) (some r)) =
      (if !(tnEq ty.node .Nil) then
        if !(tyEq ty rt) then
          .error ⟨mismatchMsg ty rt, some v.file, some r.pos⟩
        else
          ((v.typetab.grow).set_type (resolveSlot v.symtab name).1 0 ty).map
            (fun tt => { v with symtab := (resolveSlot v.symtab name).2,
                                typetab := tt })
      else
        ((v.typetab.grow).set_type (resolveSlot v.symtab name).1 0 rt).map
          (fun tt => { v with symtab := (resolveSlot v.symtab name).2,
                              typetab := tt })) := by
  rw [visit_variable.eq_def]
  dsimp only
  rw [hinit]
  dsimp only
  rw [htype]

/-- C2: for a `Variable` or `Constant` declaration with a fresh
single-identifier target and a checking-neutral initializer of inferred
type `rt`, starting from lockstep tables: when a declared type other than
the `Nil` sentinel is given and is compatible with `rt` under the relaxed
`Type` equality, checking succeeds and the declared type (annotation, mode
included) is stored in the new type slot; when the declared type is the
`Nil` sentinel, the inferred type is stored verbatim; when declared and
inferred types are incompatible, checking fails with the
"mismatched types" diagnostic naming both types at the initializer's
position. -/
theorem declaration_typing_c2 (v : Visitor) (name : String) (dt rt : Ty)
    (r : Expression) (p : Pos)
    (hfresh : v.symtab.get_name name = none)
    (hlock : v.typetab.size = v.symtab.size)
    (hinit : visit_expression { v with symtab := (resolveSlot v.symtab name).2,
                                       typetab := v.typetab.grow } r =
      .ok { v with symtab := (resolveSlot v.symtab name).2,
                   typetab := v.typetab.grow })
    (htype : type_expression { v with symtab := (resolveSlot v.symtab name).2,
                                      typetab := v.typetab.grow } r = .ok rt) :
    (tnEq dt.node .Nil = false → tyEq dt rt = true →
      ∃ v', visit_variable v (.Variable dt (.mk (.Identifier name) p) (some r)) = .ok v' ∧
            visit_constant v (.Constant dt (.mk (.Identifier name) p) r) = .ok v' ∧
            v'.typetab.types.get? v.symtab.size = some dt) ∧
    (tnEq dt.node .Nil = true →
      ∃ v', visit_variable v (.Variable dt (.mk (.Identifier name) p) (some r)) = .ok v' ∧
            visit_constant v (.Constant dt (.mk (.Identifier name) p) r) = .ok v' ∧
            v'.typetab.types.get? v.symtab.size = some rt) ∧
    (tnEq dt.node .Nil = false → tyEq dt rt = false →
      visit_variable v (.Variable dt (.mk (.Identifier name) p) (some r)) =
        .error ⟨mismatchMsg dt rt, some v.file, some r.pos⟩ ∧
      visit_constant v (.Constant dt (.mk (.Identifier name) p) r) =
        .error ⟨mismatchMsg dt rt, some v.file, some r.pos⟩) := by
  have hcomp := visit_variable_ident_compute v dt name p r rt hinit htype
  have hidx : resolveSlot v.symtab name = (v.symtab.size, (v.symtab.add_name name).2) :=
    resolveSlot_fresh _ _ hfresh
  have hlt : v.symtab.size < (v.typetab.grow).size := by
    rw [grow_size, hlock]
    omega
  refine ⟨?_, ?_, ?_⟩
  · intro hnn hcompat
    obtain ⟨tt, hset, htys⟩ := set_type_zero_of_lt (v.typetab.grow) v.symtab.size dt hlt
    rw [hnn, hcompat] at hcomp
    simp only [Bool.not_false, Bool.not_true, if_true, if_false, ite_true, ite_false] at hcomp
    rw [hidx] at hcomp
    dsimp only at hcomp
    rw [hset] at hcomp
    simp only [Except.map] at hcomp
    refine ⟨_, hcomp, ?_, ?_⟩
    · rw [visit_constant_ident_eq]
      exact hcomp
    · dsimp only
      rw [htys]
      apply List.get?_set_eq_of_lt
      rw [types_length, grow_size, hlock]
      omega
  · intro hnil
    obtain ⟨tt, hset, htys⟩ := set_type_zero_of_lt (v.typetab.grow) v.symtab.size rt hlt
    rw [hnil] at hcomp
    simp only [Bool.not_true, if_false, ite_false] at hcomp
    rw [hidx] at hcomp
    dsimp only at hcomp
    rw [hset] at hcomp
    simp only [Except.map] at hcomp
    refine ⟨_, hcomp, ?_, ?_⟩
    · rw [visit_constant_ident_eq]
      exact hcomp
    · dsimp only
      rw [htys]
      apply List.get?_set_eq_of_lt
      rw [types_length, grow_size, hlock]
      omega
  · intro hnn hbad
    rw [hnn, hbad] at hcomp
    simp only [Bool.not_false, Bool.not_true, if_true, if_false, ite_true, ite_false] at hcomp
    refine ⟨hcomp, ?_⟩
    rw [visit_constant_ident_eq]
    exact hcomp

theorem declaration_typing_c2_witness :
    ∃ v', visit_variable emptyVisitor
            (.Variable Ty.int (.mk (.Identifier "a") (1, 0)) (some lit123)) = .ok v' ∧
          visit_constant emptyVisitor
            (.Constant Ty.int (.mk (.Identifier "a") (1, 0)) lit123) = .ok v' ∧
          v'.typetab.types.get? emptyVisitor.symtab.size = some Ty.int :=
  (declaration_typing_c2 emptyVisitor "a" Ty.int Ty.number lit123 (1, 0)
    rfl rfl
    (by simp [visit_expression, lit123])
    (by simp [type_expression, lit123])).1 rfl rfl

end Wu
